import Mathlib

/-!
A Lean model of the conversational commerce bot core: the in-memory cart
service (cartService.js), the session lifecycle service (sessionService.js,
monitor variant), and the order / product-search flow handlers
(orderFlow.js, productSearchFlow.js), together with theorems about the
invariants stated for them.

Money amounts, stock figures and stored quantities are integers throughout
the program, so they are modelled as Int.  The quantity argument of
addToCart and updateQuantity is an arbitrary JavaScript number, modelled as
a rational: Number.isInteger q becomes q.den = 1, and after that check the
program works with the integer q.num.  A falsy string argument is the empty
string; a falsy numeric id is 0.  Thrown-and-caught errors are modelled as
returned failure results, since every service method wraps its body in a
try/catch that converts the throw into a success:false object.
-/

/-- Product data as passed to addToCart (fields of producto in the source). -/
structure Producto where
  id_producto : Int
  nombre : String
  precio_unitario : Int
  precio_por_mayor : Int
  stock_actual : Int
deriving Repr, DecidableEq

/-- One cart line, with the fields _createCartItem writes. -/
structure CartItem where
  id_producto : Int
  nombre : String
  cantidad : Int
  precio_unitario : Int
  precio_por_mayor : Int
  stock_disponible : Int
  subtotal : Int
  aplicaPrecioMayor : Bool
  precio_aplicado : Int
deriving Repr, DecidableEq

/-- this.CANTIDAD_PRECIO_MAYOR = 5 (minimum quantity for the bulk price). -/
def CANTIDAD_PRECIO_MAYOR : Int := 5

/-- _createCartItem(producto, cantidad): the bulk price applies exactly when
cantidad >= 5; the applied price and the subtotal are derived from it. -/
def createCartItem (producto : Producto) (cantidad : Int) : CartItem :=
  let aplicaPrecioMayor : Bool := decide (cantidad ≥ CANTIDAD_PRECIO_MAYOR)
  let precioAplicable : Int :=
    if aplicaPrecioMayor then producto.precio_por_mayor else producto.precio_unitario
  let subtotal : Int := precioAplicable * cantidad
  { id_producto := producto.id_producto
    nombre := producto.nombre
    cantidad := cantidad
    precio_unitario := producto.precio_unitario
    precio_por_mayor := producto.precio_por_mayor
    stock_disponible := producto.stock_actual
    subtotal := subtotal
    aplicaPrecioMayor := aplicaPrecioMayor
    precio_aplicado := precioAplicable }

/-- Error discriminants of the failure results returned by the cart service. -/
inductive CartError where
  | telefonoNoProporcionado
  | productoInvalido
  | cantidadInvalida
  | stockInsuficiente
  | productoNoEncontrado
deriving Repr, DecidableEq

/-- Result of a cart operation: the success flag and error of the returned
object, plus the cart stored for the user after the call. -/
structure CartOpResult where
  success : Bool
  error : Option CartError
  newCart : List CartItem
deriving Repr, DecidableEq

/-- getCart(telefono): empty for a missing phone; if the session has expired
the stored cart is cleared and the read returns empty; otherwise the stored
list.  The expired flag stands for sessionService.isSessionExpired(telefono)
at the time of the call. -/
def getCart (expired : Bool) (telefono : String) (stored : List CartItem) :
    List CartItem :=
  if telefono = "" then []
  else if expired then []
  else stored

/-- addToCart(telefono, producto, cantidad) acting on the stored cart of this
user.  Validation throws are caught and become failure results; on any
failure after the getCart call the stored cart is the getCart result (the
expiry side effect of getCart has already happened, and the non-empty phone
was already checked, so the value read and the value left stored agree). -/
def addToCart (expired : Bool) (telefono : String) (producto : Option Producto)
    (cantidad : ℚ) (stored : List CartItem) : CartOpResult :=
  if telefono = "" then
    { success := false, error := some .telefonoNoProporcionado, newCart := stored }
  else
    match producto with
    | none =>
      { success := false, error := some .productoInvalido, newCart := stored }
    | some p =>
      if p.id_producto = 0 then
        { success := false, error := some .productoInvalido, newCart := stored }
      else if cantidad ≤ 0 ∨ cantidad.den ≠ 1 then
        { success := false, error := some .cantidadInvalida, newCart := stored }
      else if cantidad.num > p.stock_actual then
        { success := false, error := some .stockInsuficiente, newCart := stored }
      else
        match (getCart expired telefono stored).findIdx?
            (fun item => item.id_producto == p.id_producto) with
        | some i =>
          match (getCart expired telefono stored)[i]? with
          | some existingItem =>
            if existingItem.cantidad + cantidad.num > p.stock_actual then
              { success := false, error := some .stockInsuficiente,
                newCart := getCart expired telefono stored }
            else
              { success := true, error := none,
                newCart := (getCart expired telefono stored).set i
                  (createCartItem p (existingItem.cantidad + cantidad.num)) }
          | none =>
            -- findIndex returned an index, so this lookup cannot miss
            { success := false, error := some .productoNoEncontrado,
              newCart := getCart expired telefono stored }
        | none =>
          { success := true, error := none,
            newCart := getCart expired telefono stored ++
              [createCartItem p cantidad.num] }

/-- updateQuantity(telefono, id_producto, nuevaCantidad). -/
def updateQuantity (expired : Bool) (telefono : String) (id_producto : Int)
    (nuevaCantidad : ℚ) (stored : List CartItem) : CartOpResult :=
  if telefono = "" ∨ id_producto = 0 then
    { success := false, error := some .telefonoNoProporcionado, newCart := stored }
  else if nuevaCantidad ≤ 0 ∨ nuevaCantidad.den ≠ 1 then
    { success := false, error := some .cantidadInvalida, newCart := stored }
  else
    match (getCart expired telefono stored).findIdx?
        (fun item => item.id_producto == id_producto) with
    | none =>
      { success := false, error := some .productoNoEncontrado,
        newCart := getCart expired telefono stored }
    | some i =>
      match (getCart expired telefono stored)[i]? with
      | none =>
        { success := false, error := some .productoNoEncontrado,
          newCart := getCart expired telefono stored }
      | some item =>
        if nuevaCantidad.num > item.stock_disponible then
          { success := false, error := some .stockInsuficiente,
            newCart := getCart expired telefono stored }
        else
          { success := true, error := none,
            newCart := (getCart expired telefono stored).set i
              (createCartItem
                { id_producto := item.id_producto
                  nombre := item.nombre
                  precio_unitario := item.precio_unitario
                  precio_por_mayor := item.precio_por_mayor
                  stock_actual := item.stock_disponible }
                nuevaCantidad.num) }

/-- removeFromCart(telefono, id_producto). -/
def removeFromCart (expired : Bool) (telefono : String) (id_producto : Int)
    (stored : List CartItem) : CartOpResult :=
  if telefono = "" ∨ id_producto = 0 then
    { success := false, error := some .telefonoNoProporcionado, newCart := stored }
  else
    match (getCart expired telefono stored).findIdx?
        (fun item => item.id_producto == id_producto) with
    | none =>
      { success := false, error := some .productoNoEncontrado,
        newCart := getCart expired telefono stored }
    | some i =>
      { success := true, error := none,
        newCart := (getCart expired telefono stored).eraseIdx i }

/-- The totals object computed by getCartTotals. -/
structure Totales where
  subtotal : Int
  descuento : Int
  total : Int
  cantidad_items : Nat
  cantidad_productos : Int
  items_con_descuento : Nat
deriving Repr, DecidableEq

/-- getCartTotals(telefono). -/
def getCartTotals (expired : Bool) (telefono : String) (stored : List CartItem) :
    Totales :=
  if (getCart expired telefono stored).length = 0 then
    { subtotal := 0, descuento := 0, total := 0, cantidad_items := 0
      cantidad_productos := 0, items_con_descuento := 0 }
  else
    { subtotal := ((getCart expired telefono stored).map
        (fun item => item.precio_unitario * item.cantidad)).sum
      descuento := ((getCart expired telefono stored).map
          (fun item => item.precio_unitario * item.cantidad)).sum -
        ((getCart expired telefono stored).map (fun item => item.subtotal)).sum
      total := ((getCart expired telefono stored).map
        (fun item => item.subtotal)).sum
      cantidad_items := (getCart expired telefono stored).length
      cantidad_productos := ((getCart expired telefono stored).map
        (fun item => item.cantidad)).sum
      items_con_descuento := ((getCart expired telefono stored).filter
        (fun item => item.aplicaPrecioMayor)).length }

/-- The pricing rule the source actually implements on a line: the bulk price
is selected exactly when the quantity reaches the threshold, and the subtotal
is the applied price times the quantity. -/
def PricingOk (item : CartItem) : Prop :=
  item.aplicaPrecioMayor = decide (item.cantidad ≥ CANTIDAD_PRECIO_MAYOR) ∧
  item.precio_aplicado =
    (if item.cantidad ≥ CANTIDAD_PRECIO_MAYOR then item.precio_por_mayor
     else item.precio_unitario) ∧
  item.subtotal = item.precio_aplicado * item.cantidad

theorem pricingOk_createCartItem (p : Producto) (q : Int) :
    PricingOk (createCartItem p q) := by
  unfold PricingOk createCartItem
  by_cases h : q ≥ CANTIDAD_PRECIO_MAYOR <;> simp [h]

theorem mem_getCart {expired : Bool} {telefono : String} {stored : List CartItem}
    {it : CartItem} (h : it ∈ getCart expired telefono stored) : it ∈ stored := by
  unfold getCart at h
  split at h
  · simp at h
  · split at h
    · simp at h
    · exact h

theorem addToCart_pricing {expired : Bool} {telefono : String}
    {producto : Option Producto} {cantidad : ℚ} {stored : List CartItem}
    (h : ∀ it ∈ stored, PricingOk it) :
    ∀ it ∈ (addToCart expired telefono producto cantidad stored).newCart,
      PricingOk it := by
  intro it hit
  unfold addToCart at hit
  split at hit
  · exact h it hit
  · split at hit
    · exact h it hit
    · split at hit
      · exact h it hit
      · split at hit
        · exact h it hit
        · split at hit
          · exact h it hit
          · split at hit
            · split at hit
              · split at hit
                · exact h it (mem_getCart hit)
                · simp only at hit
                  rcases List.mem_or_eq_of_mem_set hit with hmem | heq
                  · exact h it (mem_getCart hmem)
                  · subst heq; exact pricingOk_createCartItem _ _
              · exact h it (mem_getCart hit)
            · simp only [List.mem_append, List.mem_singleton] at hit
              rcases hit with hmem | heq
              · exact h it (mem_getCart hmem)
              · subst heq; exact pricingOk_createCartItem _ _

theorem updateQuantity_pricing {expired : Bool} {telefono : String}
    {id_producto : Int} {nuevaCantidad : ℚ} {stored : List CartItem}
    (h : ∀ it ∈ stored, PricingOk it) :
    ∀ it ∈ (updateQuantity expired telefono id_producto nuevaCantidad stored).newCart,
      PricingOk it := by
  intro it hit
  unfold updateQuantity at hit
  split at hit
  · exact h it hit
  · split at hit
    · exact h it hit
    · split at hit
      · exact h it (mem_getCart hit)
      · split at hit
        · exact h it (mem_getCart hit)
        · split at hit
          · exact h it (mem_getCart hit)
          · simp only at hit
            rcases List.mem_or_eq_of_mem_set hit with hmem | heq
            · exact h it (mem_getCart hmem)
            · subst heq; exact pricingOk_createCartItem _ _

/-- C1: the claim asserts the bulk price applies iff quantity >= 5 AND
bulkPrice > 0 AND bulkPrice < unitPrice, and otherwise the unit price
applies.  The source checks only quantity >= 5: adding 5 units of a product
whose precio_por_mayor is 0 succeeds and prices the line at 0, not at the
unit price, refuting the claim. -/
theorem addToCart_bulk_price_ignores_price_sanity :
    (addToCart false "56911111111" (some ⟨1, "mani", 1000, 0, 10⟩) 5 []).success
        = true ∧
    (addToCart false "56911111111" (some ⟨1, "mani", 1000, 0, 10⟩) 5 []).newCart
        = [createCartItem ⟨1, "mani", 1000, 0, 10⟩ 5] ∧
    (createCartItem ⟨1, "mani", 1000, 0, 10⟩ 5).cantidad ≥ 5 ∧
    ¬ ((createCartItem ⟨1, "mani", 1000, 0, 10⟩ 5).precio_por_mayor > 0) ∧
    (createCartItem ⟨1, "mani", 1000, 0, 10⟩ 5).precio_aplicado
        = (createCartItem ⟨1, "mani", 1000, 0, 10⟩ 5).precio_por_mayor ∧
    (createCartItem ⟨1, "mani", 1000, 0, 10⟩ 5).precio_aplicado
        ≠ (createCartItem ⟨1, "mani", 1000, 0, 10⟩ 5).precio_unitario := by
  decide

/-- C1 (amended): for every cart line created or updated by addToCart or
updateQuantity, the applied price equals the bulk price iff quantity >= 5
(with no condition on the bulk price itself), otherwise the unit price, and
the subtotal always equals appliedPrice * quantity: the pricing rule is
preserved by both operations, and holds of every line either one writes. -/
theorem cart_pricing_rule {expired : Bool} {telefono : String}
    {producto : Option Producto} {id_producto : Int} {cantidad q2 : ℚ}
    {stored : List CartItem}
    (h : ∀ it ∈ stored, PricingOk it) :
    (∀ p q, PricingOk (createCartItem p q)) ∧
    (∀ it ∈ (addToCart expired telefono producto cantidad stored).newCart,
       PricingOk it) ∧
    (∀ it ∈ (updateQuantity expired telefono id_producto q2 stored).newCart,
       PricingOk it) :=
  ⟨pricingOk_createCartItem, addToCart_pricing h, updateQuantity_pricing h⟩

/-- Witness for cart_pricing_rule at a concrete input: the line a concrete
add writes satisfies the pricing rule. -/
theorem cart_pricing_rule_witness :
    PricingOk (createCartItem ⟨1, "mani", 1000, 800, 10⟩ 5) := by
  have h := @cart_pricing_rule false "56911111111"
    (some ⟨1, "mani", 1000, 800, 10⟩) 2 5 4 []
    (fun it hit => by simp at hit)
  exact h.2.1 (createCartItem ⟨1, "mani", 1000, 800, 10⟩ 5) (by decide)

/-- Session timing constants, in milliseconds (15 / 12 / 8 minutes). -/
def SESSION_DURATION : Int := 15 * 60 * 1000

def WARNING_TIME : Int := 12 * 60 * 1000

def CONTEXT_RESET_TIME : Int := 8 * 60 * 1000

/-- One session record of the session store. -/
structure Session where
  lastActivity : Int
  createdAt : Int
  warningShown : Bool
  finishMessageShown : Bool
  contextResetShown : Bool
deriving Repr, DecidableEq

/-- updateSession(userId) on the session of one user: refreshes lastActivity,
keeps createdAt of an existing session, and clears all three notice flags. -/
def updateSession (now : Int) (existing : Option Session) : Session :=
  { lastActivity := now
    createdAt :=
      match existing with
      | some s => s.createdAt
      | none => now
    warningShown := false
    finishMessageShown := false
    contextResetShown := false }

/-- isSessionExpired(userId): false for a missing userId or a missing session,
else true iff now - lastActivity > SESSION_DURATION. -/
def isSessionExpired (now : Int) (userId : String) (session : Option Session) :
    Bool :=
  if userId = "" then false
  else
    match session with
    | none => false
    | some s => decide (now - s.lastActivity > SESSION_DURATION)

/-- The conversation states of conversationStateService.STATES. -/
inductive ConvState where
  | INITIAL
  | WAITING_NAME
  | WAITING_LASTNAME
  | MENU
  | PRODUCTOS
  | PEDIDOS
  | FAQ
  | PRODUCT_SEARCH_WAITING_QUERY
  | PRODUCT_SEARCH_SHOWING_RESULTS
  | PRODUCT_SEARCH_WAITING_SELECTION
  | PRODUCT_SEARCH_SHOWING_DETAILS
  | ORDER_REQUESTING_PRODUCTS
  | ORDER_SELECTING_AMBIGUOUS
  | ORDER_CONFIRM_ADD_PRODUCT
  | ORDER_QUANTITY_INPUT
  | ORDER_SELECTING_NUMBER
  | ORDER_ADDING_MORE
  | ORDER_DELIVERY_METHOD
  | ORDER_DELIVERY_ADDRESS
  | ORDER_DELIVERY_CITY
  | ORDER_DELIVERY_COMUNA
  | ORDER_COURIER_SELECTION
  | ORDER_CONFIRMING
deriving Repr, DecidableEq

/-- getState(telefono): the stored state, defaulting to INITIAL. -/
def getState (stored : Option ConvState) : ConvState :=
  stored.getD .INITIAL

/-- The order draft accumulated in conversationStateService orderData. -/
structure OrderData where
  modalidad : Option String
  direccion_envio : Option String
  direccion : Option String
  ciudad : Option String
  comuna : Option String
  courier : Option String
deriving Repr, DecidableEq

/-- The empty draft setOrderData starts from when no record exists. -/
def emptyOrderData : OrderData :=
  { modalidad := none, direccion_envio := none, direccion := none
    ciudad := none, comuna := none, courier := none }

/-- All per-user state the session monitor can touch: the session record, the
conversation state entry, the temporary registration data, the cached client
data, the order draft and the cart. -/
structure UserState where
  session : Option Session
  convState : Option ConvState
  tempData : Bool
  clientData : Bool
  orderData : Option OrderData
  cart : List CartItem
deriving Repr, DecidableEq

/-- The three outbound notices the monitor can send to a user. -/
inductive Notice where
  | conversacionFinalizada
  | advertenciaSesion
  | reinicioInactividad
deriving Repr, DecidableEq

/-- The per-user body of checkActiveSessions at sweep time now.  The expiry
branch marks finishMessageShown, sends the finalization notice and performs
resetSession (session removed; conversation state, temp data, client data,
order data and cart all cleared).  The warning branch marks warningShown and
sends the warning.  The context-reset branch marks contextResetShown, sends
the inactivity-reset notice, performs resetContext(userId, false) - clearing
only the conversation state and temp data, and NOT refreshing lastActivity,
so the countdown to expiry keeps running - and then mostrarMenuPrincipal
sets the conversation state to MENU. -/
def checkActiveSessionsUser (now : Int) (u : UserState) :
    UserState × List Notice :=
  match u.session with
  | none => (u, [])
  | some s =>
    if now - s.lastActivity ≥ SESSION_DURATION then
      if s.finishMessageShown then (u, [])
      else
        ({ session := none, convState := none, tempData := false
           clientData := false, orderData := none, cart := [] },
         [.conversacionFinalizada])
    else if now - s.lastActivity ≥ WARNING_TIME ∧ s.warningShown = false then
      ({ u with session := some { s with warningShown := true } },
       [.advertenciaSesion])
    else if now - s.lastActivity ≥ CONTEXT_RESET_TIME ∧
        s.contextResetShown = false then
      ({ u with
         session := some { s with contextResetShown := true }
         convState := some .MENU
         tempData := false },
       [.reinicioInactividad])
    else (u, [])

/-- Repeated monitor sweeps at the given instants, with no intervening touch
of the session; collects every notice sent. -/
def sweepSeq : UserState → List Int → UserState × List Notice
  | u, [] => (u, [])
  | u, t :: ts =>
    ((sweepSeq (checkActiveSessionsUser t u).1 ts).1,
     (checkActiveSessionsUser t u).2 ++ (sweepSeq (checkActiveSessionsUser t u).1 ts).2)

/-- Occurrences of one notice in a list of sent notices. -/
def countNotice (n : Notice) : List Notice → Nat
  | [] => 0
  | m :: ms => (if m = n then 1 else 0) + countNotice n ms

theorem countNotice_append (n : Notice) (a b : List Notice) :
    countNotice n (a ++ b) = countNotice n a + countNotice n b := by
  induction a with
  | nil => simp [countNotice]
  | cons m ms ih => simp [countNotice, ih]; omega

/-- Remaining sends of the session-warning notice a session admits. -/
def warnBudget (u : UserState) : Nat :=
  match u.session with
  | none => 0
  | some s => if s.warningShown then 0 else 1

/-- Remaining sends of the finalization notice a session admits. -/
def finBudget (u : UserState) : Nat :=
  match u.session with
  | none => 0
  | some s => if s.finishMessageShown then 0 else 1

/-- Remaining sends of the context-reset notice a session admits. -/
def resetBudget (u : UserState) : Nat :=
  match u.session with
  | none => 0
  | some s => if s.contextResetShown then 0 else 1

theorem sweep_warn_step (t : Int) (u : UserState) :
    countNotice .advertenciaSesion (checkActiveSessionsUser t u).2 +
      warnBudget (checkActiveSessionsUser t u).1 ≤ warnBudget u := by
  unfold checkActiveSessionsUser
  rcases u with ⟨sess, cs, td, cd, od, cart⟩
  cases sess with
  | none => simp [warnBudget, countNotice]
  | some s =>
    simp only
    split
    · split
      · simp [warnBudget, countNotice]
      · simp [warnBudget, countNotice]
    · split
      · rename_i hw
        simp [warnBudget, countNotice, hw.2]
      · split
        · simp [warnBudget, countNotice]
        · simp [warnBudget, countNotice]

theorem sweep_fin_step (t : Int) (u : UserState) :
    countNotice .conversacionFinalizada (checkActiveSessionsUser t u).2 +
      finBudget (checkActiveSessionsUser t u).1 ≤ finBudget u := by
  unfold checkActiveSessionsUser
  rcases u with ⟨sess, cs, td, cd, od, cart⟩
  cases sess with
  | none => simp [finBudget, countNotice]
  | some s =>
    simp only
    split
    · split
      · simp [finBudget, countNotice]
      · rename_i hf
        simp [finBudget, countNotice, hf]
    · split
      · simp [finBudget, countNotice]
      · split
        · simp [finBudget, countNotice]
        · simp [finBudget, countNotice]

theorem sweep_reset_step (t : Int) (u : UserState) :
    countNotice .reinicioInactividad (checkActiveSessionsUser t u).2 +
      resetBudget (checkActiveSessionsUser t u).1 ≤ resetBudget u := by
  unfold checkActiveSessionsUser
  rcases u with ⟨sess, cs, td, cd, od, cart⟩
  cases sess with
  | none => simp [resetBudget, countNotice]
  | some s =>
    simp only
    split
    · split
      · simp [resetBudget, countNotice]
      · simp [resetBudget, countNotice]
    · split
      · simp [resetBudget, countNotice]
      · split
        · rename_i hr
          simp [resetBudget, countNotice, hr.2]
        · simp [resetBudget, countNotice]

theorem sweepSeq_warn (ts : List Int) (u : UserState) :
    countNotice .advertenciaSesion (sweepSeq u ts).2 ≤ warnBudget u := by
  induction ts generalizing u with
  | nil => simp [sweepSeq, countNotice]
  | cons t ts ih =>
    have h1 := sweep_warn_step t u
    have h2 := ih (checkActiveSessionsUser t u).1
    simp only [sweepSeq, countNotice_append]
    omega

theorem sweepSeq_fin (ts : List Int) (u : UserState) :
    countNotice .conversacionFinalizada (sweepSeq u ts).2 ≤ finBudget u := by
  induction ts generalizing u with
  | nil => simp [sweepSeq, countNotice]
  | cons t ts ih =>
    have h1 := sweep_fin_step t u
    have h2 := ih (checkActiveSessionsUser t u).1
    simp only [sweepSeq, countNotice_append]
    omega

theorem sweepSeq_reset (ts : List Int) (u : UserState) :
    countNotice .reinicioInactividad (sweepSeq u ts).2 ≤ resetBudget u := by
  induction ts generalizing u with
  | nil => simp [sweepSeq, countNotice]
  | cons t ts ih =>
    have h1 := sweep_reset_step t u
    have h2 := ih (checkActiveSessionsUser t u).1
    simp only [sweepSeq, countNotice_append]
    omega

theorem warnBudget_le_one (u : UserState) : warnBudget u ≤ 1 := by
  unfold warnBudget
  split
  · omega
  · split <;> omega

theorem finBudget_le_one (u : UserState) : finBudget u ≤ 1 := by
  unfold finBudget
  split
  · omega
  · split <;> omega

theorem resetBudget_le_one (u : UserState) : resetBudget u ≤ 1 := by
  unfold resetBudget
  split
  · omega
  · split <;> omega

/-- C5: across any sequence of monitor sweeps with no intervening touch of
the session, each of the warning, context-reset and expiry notices is sent
at most once; and updateSession (the touch on every processed inbound
message) resets all three guard flags, re-arming the notices. -/
theorem notices_fire_at_most_once :
    (∀ (u : UserState) (ts : List Int),
       countNotice .advertenciaSesion (sweepSeq u ts).2 ≤ 1 ∧
       countNotice .reinicioInactividad (sweepSeq u ts).2 ≤ 1 ∧
       countNotice .conversacionFinalizada (sweepSeq u ts).2 ≤ 1) ∧
    (∀ (now : Int) (existing : Option Session),
       (updateSession now existing).warningShown = false ∧
       (updateSession now existing).contextResetShown = false ∧
       (updateSession now existing).finishMessageShown = false) := by
  constructor
  · intro u ts
    refine ⟨le_trans (sweepSeq_warn ts u) (warnBudget_le_one u),
      le_trans (sweepSeq_reset ts u) (resetBudget_le_one u),
      le_trans (sweepSeq_fin ts u) (finBudget_le_one u)⟩
  · intro now existing
    exact ⟨rfl, rfl, rfl⟩

/-- C4: for a session last touched at t0 and checked at t0 + elapsed,
isSessionExpired is true iff elapsed is strictly greater than the 15 minute
SESSION_DURATION; for a user with no session in the store it is false. -/
theorem isSessionExpired_boundary (userId : String) (s : Session)
    (elapsed : Int) (h : userId ≠ "") :
    isSessionExpired (s.lastActivity + elapsed) userId (some s)
        = decide (elapsed > SESSION_DURATION) ∧
    (∀ now : Int, isSessionExpired now userId none = false) := by
  constructor
  · unfold isSessionExpired
    simp only [if_neg h]
    have he : s.lastActivity + elapsed - s.lastActivity = elapsed := by ring
    rw [he]
  · intro now
    unfold isSessionExpired
    simp [if_neg h]

/-- Witness for isSessionExpired_boundary: one millisecond before the TTL the
session is not expired, one millisecond after it is. -/
theorem isSessionExpired_boundary_witness :
    isSessionExpired (1000 + (SESSION_DURATION - 1)) "56911111111"
        (some ⟨1000, 1000, false, false, false⟩) = false ∧
    isSessionExpired (1000 + (SESSION_DURATION + 1)) "56911111111"
        (some ⟨1000, 1000, false, false, false⟩) = true ∧
    isSessionExpired 2000000 "56911111111" none = false := by
  have h1 := isSessionExpired_boundary "56911111111"
    ⟨1000, 1000, false, false, false⟩ (SESSION_DURATION - 1) (by decide)
  have h2 := isSessionExpired_boundary "56911111111"
    ⟨1000, 1000, false, false, false⟩ (SESSION_DURATION + 1) (by decide)
  refine ⟨?_, ?_, h1.2 2000000⟩
  · rw [h1.1]
    decide
  · rw [h2.1]
    decide

/-- C3: the claim says the context reset re-touches lastActivityAt.  At the
8-minute sweep the source calls resetContext(userId, false), which skips the
updateSession call: the notice is sent and the flag marked, but lastActivity
stays at its old value (0 here) instead of the sweep time 480000, so the
inactivity clock keeps running. -/
theorem context_reset_does_not_touch_activity :
    (checkActiveSessionsUser 480000
        ⟨some ⟨0, 0, false, false, false⟩, some .ORDER_REQUESTING_PRODUCTS,
         true, true, some emptyOrderData, []⟩).2 = [.reinicioInactividad] ∧
    (checkActiveSessionsUser 480000
        ⟨some ⟨0, 0, false, false, false⟩, some .ORDER_REQUESTING_PRODUCTS,
         true, true, some emptyOrderData, []⟩).1.session
      = some ⟨0, 0, false, false, true⟩ ∧
    (0 : Int) ≠ 480000 := by
  decide

/-- C3 (amended): when a sweep finds elapsed inactivity at or past the
8-minute context-reset threshold, below the warning threshold, and the
context-reset flag unset, it sends the returned-to-main-menu notice, marks
the flag, clears only the conversation state and temp data (session record,
client data, order draft and cart untouched), re-enters the main menu state,
and does NOT re-touch lastActivityAt: the inactivity clock keeps running
toward the warning and expiry notices. -/
theorem context_reset_behavior (s : Session) (cs : Option ConvState)
    (td cd : Bool) (od : Option OrderData) (cart : List CartItem) (now : Int)
    (h1 : now - s.lastActivity ≥ CONTEXT_RESET_TIME)
    (h2 : now - s.lastActivity < WARNING_TIME)
    (h3 : s.contextResetShown = false) :
    checkActiveSessionsUser now ⟨some s, cs, td, cd, od, cart⟩ =
      (⟨some { s with contextResetShown := true }, some .MENU, false, cd, od,
        cart⟩,
       [.reinicioInactividad]) := by
  have hW : WARNING_TIME = 720000 := by decide
  have hS : SESSION_DURATION = 900000 := by decide
  have h2w : now - s.lastActivity < 720000 := by rw [hW] at h2; exact h2
  have hnS : ¬ now - s.lastActivity ≥ SESSION_DURATION := by
    rw [hS]; omega
  have hnW : ¬ (now - s.lastActivity ≥ WARNING_TIME ∧ s.warningShown = false) := by
    rw [hW]; rintro ⟨hw, _⟩; omega
  have hD : now - s.lastActivity ≥ CONTEXT_RESET_TIME ∧
      s.contextResetShown = false := ⟨h1, h3⟩
  unfold checkActiveSessionsUser
  dsimp only
  rw [if_neg hnS, if_neg hnW, if_pos hD]

/-- Witness for context_reset_behavior at a concrete session and sweep. -/
theorem context_reset_behavior_witness :
    checkActiveSessionsUser 500000
        ⟨some ⟨0, 0, false, false, false⟩, some .ORDER_CONFIRMING, true, true,
         some emptyOrderData, [createCartItem ⟨1, "mani", 1000, 800, 10⟩ 2]⟩ =
      (⟨some ⟨0, 0, false, false, true⟩, some .MENU, false, true,
        some emptyOrderData, [createCartItem ⟨1, "mani", 1000, 800, 10⟩ 2]⟩,
       [.reinicioInactividad]) := by
  exact context_reset_behavior ⟨0, 0, false, false, false⟩
    (some .ORDER_CONFIRMING) true true (some emptyOrderData)
    [createCartItem ⟨1, "mani", 1000, 800, 10⟩ 2] 500000
    (by decide) (by decide) (by decide)

/-- The stock bound on one line: the stored quantity never exceeds the stock
recorded on the line (which _createCartItem sets to the stock of the product
at the time of the mutation). -/
def StockOk (item : CartItem) : Prop :=
  item.cantidad ≤ item.stock_disponible

theorem stockOk_createCartItem {p : Producto} {n : Int}
    (h : n ≤ p.stock_actual) : StockOk (createCartItem p n) := by
  simpa [StockOk, createCartItem] using h

theorem getCart_live {expired : Bool} {telefono : String}
    {stored : List CartItem} (h : telefono ≠ "") (he : expired = false) :
    getCart expired telefono stored = stored := by
  unfold getCart
  rw [if_neg h, he]
  simp

theorem addToCart_stock {expired : Bool} {telefono : String}
    {producto : Option Producto} {cantidad : ℚ} {stored : List CartItem}
    (h : ∀ it ∈ stored, StockOk it) :
    ∀ it ∈ (addToCart expired telefono producto cantidad stored).newCart,
      StockOk it := by
  intro it hit
  unfold addToCart at hit
  split at hit
  · exact h it hit
  · split at hit
    · exact h it hit
    · split at hit
      · exact h it hit
      · split at hit
        · exact h it hit
        · split at hit
          · exact h it hit
          · rename_i hq
            split at hit
            · split at hit
              · split at hit
                · exact h it (mem_getCart hit)
                · rename_i hm
                  simp only at hit
                  rcases List.mem_or_eq_of_mem_set hit with hmem | heq
                  · exact h it (mem_getCart hmem)
                  · subst heq
                    exact stockOk_createCartItem (by omega)
              · exact h it (mem_getCart hit)
            · simp only [List.mem_append, List.mem_singleton] at hit
              rcases hit with hmem | heq
              · exact h it (mem_getCart hmem)
              · subst heq
                exact stockOk_createCartItem (by omega)

theorem updateQuantity_stock {expired : Bool} {telefono : String}
    {id_producto : Int} {nuevaCantidad : ℚ} {stored : List CartItem}
    (h : ∀ it ∈ stored, StockOk it) :
    ∀ it ∈ (updateQuantity expired telefono id_producto nuevaCantidad
        stored).newCart, StockOk it := by
  intro it hit
  unfold updateQuantity at hit
  split at hit
  · exact h it hit
  · split at hit
    · exact h it hit
    · split at hit
      · exact h it (mem_getCart hit)
      · split at hit
        · exact h it (mem_getCart hit)
        · split at hit
          · exact h it (mem_getCart hit)
          · rename_i hm
            simp only at hit
            rcases List.mem_or_eq_of_mem_set hit with hmem | heq
            · exact h it (mem_getCart hmem)
            · subst heq
              exact stockOk_createCartItem (by simpa using by omega)

/-- One user action on the cart: an addToCart or an updateQuantity call. -/
inductive CartOp where
  | add (producto : Option Producto) (cantidad : ℚ)
  | upd (id_producto : Int) (cantidad : ℚ)

/-- The cart stored after one operation. -/
def applyOp (expired : Bool) (telefono : String) (stored : List CartItem) :
    CartOp → List CartItem
  | .add producto cantidad =>
    (addToCart expired telefono producto cantidad stored).newCart
  | .upd id_producto cantidad =>
    (updateQuantity expired telefono id_producto cantidad stored).newCart

/-- The cart stored after a sequence of operations. -/
def runOps (expired : Bool) (telefono : String) :
    List CartOp → List CartItem → List CartItem
  | [], stored => stored
  | op :: ops, stored =>
    runOps expired telefono ops (applyOp expired telefono stored op)

theorem runOps_stock (expired : Bool) (telefono : String) (ops : List CartOp)
    (stored : List CartItem) (h : ∀ it ∈ stored, StockOk it) :
    ∀ it ∈ runOps expired telefono ops stored, StockOk it := by
  induction ops generalizing stored with
  | nil => exact h
  | cons op ops ih =>
    intro it hit
    refine ih (applyOp expired telefono stored op) ?_ it hit
    cases op with
    | add producto cantidad => exact addToCart_stock h
    | upd id_producto cantidad => exact updateQuantity_stock h

theorem addToCart_new_stock_fail {telefono : String} {p : Producto}
    {cantidad : ℚ} {stored : List CartItem}
    (ht : telefono ≠ "") (hid : p.id_producto ≠ 0)
    (hq0 : 0 < cantidad) (hqi : cantidad.den = 1)
    (hst : cantidad.num > p.stock_actual) :
    addToCart false telefono (some p) cantidad stored =
      { success := false, error := some .stockInsuficiente, newCart := stored } := by
  unfold addToCart
  rw [if_neg ht]
  dsimp only
  rw [if_neg hid, if_neg (by push_neg; exact ⟨hq0, hqi⟩), if_pos hst]

theorem addToCart_merge_stock_fail {telefono : String} {p : Producto}
    {cantidad : ℚ} {stored : List CartItem} {i : Nat} {existingItem : CartItem}
    (ht : telefono ≠ "") (hid : p.id_producto ≠ 0)
    (hq0 : 0 < cantidad) (hqi : cantidad.den = 1)
    (hst : ¬ cantidad.num > p.stock_actual)
    (hfind : stored.findIdx? (fun item => item.id_producto == p.id_producto)
      = some i)
    (hget : stored[i]? = some existingItem)
    (hmerge : existingItem.cantidad + cantidad.num > p.stock_actual) :
    addToCart false telefono (some p) cantidad stored =
      { success := false, error := some .stockInsuficiente, newCart := stored } := by
  unfold addToCart
  rw [if_neg ht]
  dsimp only
  rw [if_neg hid, if_neg (by push_neg; exact ⟨hq0, hqi⟩), if_neg hst,
    getCart_live ht rfl, hfind]
  dsimp only
  rw [hget]
  dsimp only
  rw [if_pos hmerge]

theorem updateQuantity_stock_fail {telefono : String} {id_producto : Int}
    {nuevaCantidad : ℚ} {stored : List CartItem} {i : Nat} {item : CartItem}
    (ht : ¬ (telefono = "" ∨ id_producto = 0))
    (hq0 : 0 < nuevaCantidad) (hqi : nuevaCantidad.den = 1)
    (hfind : stored.findIdx? (fun it => it.id_producto == id_producto) = some i)
    (hget : stored[i]? = some item)
    (hst : nuevaCantidad.num > item.stock_disponible) :
    updateQuantity false telefono id_producto nuevaCantidad stored =
      { success := false, error := some .stockInsuficiente, newCart := stored } := by
  have ht' : telefono ≠ "" := fun h => ht (Or.inl h)
  unfold updateQuantity
  rw [if_neg ht, if_neg (by push_neg; exact ⟨hq0, hqi⟩),
    getCart_live ht' rfl, hfind]
  dsimp only
  rw [hget]
  dsimp only
  rw [if_pos hst]

/-- C2: starting from an empty cart, no sequence of addToCart and
updateQuantity calls ever produces a line whose quantity exceeds the
availableStock recorded on the product at the time of the mutation (cached
on the line as stock_disponible); an add whose requested quantity, or merged
quantity with an existing line, exceeds the product stock, and an update
whose new quantity exceeds the cached line stock, each return the
stock-insufficient failure and leave the stored cart unchanged. -/
theorem cart_stock_invariant (expired : Bool) (telefono : String)
    (ops : List CartOp) :
    (∀ it ∈ runOps expired telefono ops [], it.cantidad ≤ it.stock_disponible) ∧
    (∀ (p : Producto) (cantidad : ℚ) (stored : List CartItem),
       telefono ≠ "" → p.id_producto ≠ 0 → 0 < cantidad → cantidad.den = 1 →
       cantidad.num > p.stock_actual →
       addToCart false telefono (some p) cantidad stored =
         { success := false, error := some .stockInsuficiente,
           newCart := stored }) ∧
    (∀ (p : Producto) (cantidad : ℚ) (stored : List CartItem) (i : Nat)
       (existingItem : CartItem),
       telefono ≠ "" → p.id_producto ≠ 0 → 0 < cantidad → cantidad.den = 1 →
       ¬ cantidad.num > p.stock_actual →
       stored.findIdx? (fun item => item.id_producto == p.id_producto) = some i →
       stored[i]? = some existingItem →
       existingItem.cantidad + cantidad.num > p.stock_actual →
       addToCart false telefono (some p) cantidad stored =
         { success := false, error := some .stockInsuficiente,
           newCart := stored }) ∧
    (∀ (id_producto : Int) (nuevaCantidad : ℚ) (stored : List CartItem)
       (i : Nat) (item : CartItem),
       ¬ (telefono = "" ∨ id_producto = 0) → 0 < nuevaCantidad →
       nuevaCantidad.den = 1 →
       stored.findIdx? (fun it => it.id_producto == id_producto) = some i →
       stored[i]? = some item →
       nuevaCantidad.num > item.stock_disponible →
       updateQuantity false telefono id_producto nuevaCantidad stored =
         { success := false, error := some .stockInsuficiente,
           newCart := stored }) := by
  refine ⟨fun it hit => runOps_stock expired telefono ops [] (by simp) it hit,
    ?_, ?_, ?_⟩
  · intro p cantidad stored ht hid hq0 hqi hst
    exact addToCart_new_stock_fail ht hid hq0 hqi hst
  · intro p cantidad stored i existingItem ht hid hq0 hqi hst hfind hget hmerge
    exact addToCart_merge_stock_fail ht hid hq0 hqi hst hfind hget hmerge
  · intro id_producto nuevaCantidad stored i item ht hq0 hqi hfind hget hst
    exact updateQuantity_stock_fail ht hq0 hqi hfind hget hst

/-- Witness for cart_stock_invariant: a concrete over-stock add is rejected
and leaves a concrete one-line cart unchanged. -/
theorem cart_stock_invariant_witness :
    addToCart false "56911111111" (some ⟨1, "mani", 1000, 800, 5⟩) 7
        [createCartItem ⟨2, "almendras", 2000, 1500, 9⟩ 3] =
      { success := false, error := some .stockInsuficiente,
        newCart := [createCartItem ⟨2, "almendras", 2000, 1500, 9⟩ 3] } := by
  exact (cart_stock_invariant false "56911111111" []).2.1
    ⟨1, "mani", 1000, 800, 5⟩ 7
    [createCartItem ⟨2, "almendras", 2000, 1500, 9⟩ 3]
    (by decide) (by decide) (by decide) (by decide) (by decide)

theorem addToCart_fail_unchanged (telefono : String)
    (producto : Option Producto) (cantidad : ℚ) (stored : List CartItem) :
    (addToCart false telefono producto cantidad stored).success = false →
    (addToCart false telefono producto cantidad stored).newCart = stored := by
  unfold addToCart
  split
  · intro _; rfl
  · rename_i ht
    split
    · intro _; rfl
    · split
      · intro _; rfl
      · split
        · intro _; rfl
        · split
          · intro _; rfl
          · split
            · split
              · split
                · intro _
                  exact getCart_live ht rfl
                · intro h; simp at h
              · intro _
                exact getCart_live ht rfl
            · intro h; simp at h

theorem updateQuantity_fail_unchanged (telefono : String) (id_producto : Int)
    (nuevaCantidad : ℚ) (stored : List CartItem) :
    (updateQuantity false telefono id_producto nuevaCantidad stored).success
        = false →
    (updateQuantity false telefono id_producto nuevaCantidad stored).newCart
        = stored := by
  unfold updateQuantity
  split
  · intro _; rfl
  · rename_i ht
    have ht' : telefono ≠ "" := fun h => ht (Or.inl h)
    split
    · intro _; rfl
    · split
      · intro _
        exact getCart_live ht' rfl
      · split
        · intro _
          exact getCart_live ht' rfl
        · split
          · intro _
            exact getCart_live ht' rfl
          · intro h; simp at h

theorem removeFromCart_fail_unchanged (telefono : String) (id_producto : Int)
    (stored : List CartItem) :
    (removeFromCart false telefono id_producto stored).success = false →
    (removeFromCart false telefono id_producto stored).newCart = stored := by
  unfold removeFromCart
  split
  · intro _; rfl
  · rename_i ht
    have ht' : telefono ≠ "" := fun h => ht (Or.inl h)
    split
    · intro _
      exact getCart_live ht' rfl
    · intro h; simp at h

/-- C10: addToCart, updateQuantity and removeFromCart are total functions of
their inputs (every throw in the source is caught and returned as a result
object with success = false), and whenever success is false the stored cart
of a user whose session has not expired is left exactly as it was. -/
theorem cart_ops_fail_safe (telefono : String) (producto : Option Producto)
    (id_producto : Int) (cantidad nuevaCantidad : ℚ)
    (stored : List CartItem) :
    ((addToCart false telefono producto cantidad stored).success = false →
       (addToCart false telefono producto cantidad stored).newCart = stored) ∧
    ((updateQuantity false telefono id_producto nuevaCantidad stored).success
         = false →
       (updateQuantity false telefono id_producto nuevaCantidad
         stored).newCart = stored) ∧
    ((removeFromCart false telefono id_producto stored).success = false →
       (removeFromCart false telefono id_producto stored).newCart = stored) :=
  ⟨addToCart_fail_unchanged telefono producto cantidad stored,
   updateQuantity_fail_unchanged telefono id_producto nuevaCantidad stored,
   removeFromCart_fail_unchanged telefono id_producto stored⟩

/-- Witness for cart_ops_fail_safe: an invalid-product add, a not-in-cart
quantity update and a not-in-cart removal each leave a concrete cart as it
was. -/
theorem cart_ops_fail_safe_witness :
    (addToCart false "56911111111" none 1
        [createCartItem ⟨1, "mani", 1000, 800, 10⟩ 2]).newCart
      = [createCartItem ⟨1, "mani", 1000, 800, 10⟩ 2] ∧
    (updateQuantity false "56911111111" 9 2
        [createCartItem ⟨1, "mani", 1000, 800, 10⟩ 2]).newCart
      = [createCartItem ⟨1, "mani", 1000, 800, 10⟩ 2] ∧
    (removeFromCart false "56911111111" 9
        [createCartItem ⟨1, "mani", 1000, 800, 10⟩ 2]).newCart
      = [createCartItem ⟨1, "mani", 1000, 800, 10⟩ 2] := by
  refine ⟨(cart_ops_fail_safe "56911111111" none 9 1 2
      [createCartItem ⟨1, "mani", 1000, 800, 10⟩ 2]).1 ?_,
    (cart_ops_fail_safe "56911111111" (some ⟨1, "mani", 1000, 800, 10⟩) 9 1
      2 [createCartItem ⟨1, "mani", 1000, 800, 10⟩ 2]).2.1 ?_,
    (cart_ops_fail_safe "56911111111" none 9 1 2
      [createCartItem ⟨1, "mani", 1000, 800, 10⟩ 2]).2.2 ?_⟩
  · decide
  · decide
  · decide

/-- JavaScript needle.includes on lists of characters. -/
def containsList : List Char → List Char → Bool
  | [], needle => needle.isEmpty
  | c :: rest, needle => needle.isPrefixOf (c :: rest) || containsList rest needle

/-- mensaje.toLowerCase().trim() as the flows compute it.  Char.toLower only
lowercases ASCII letters; the keywords the flows compare against are ASCII
apart from the accented letters they already hold in lowercase form. -/
def mensajeNormalizado (mensaje : String) : List Char :=
  (((mensaje.data.map Char.toLower).dropWhile Char.isWhitespace).reverse.dropWhile
    Char.isWhitespace).reverse

/-- The outbound messages of the order and product-search flows, keyed by
which template is sent, with the data interpolated into the template. -/
inductive Msg where
  | procesandoPedido
  | errorSesion
  | pedidoExitoso (pedidoId : Int) (total : Int)
  | errorPedido (detalle : String)
  | pedidoCancelado
  | confirmarNoEntendido
  | menuPrincipal
  | retiroSeleccionado
  | resumenPedido
  | montoMinimo (total falta : Int)
  | domicilioSeleccionado
  | opcionNoValida
  | productoAgregadoPlaceholder (nombre : String)
  | errorSinProducto
  | detallesNoEntendido (nombre : String)
  | busquedaBienvenida
deriving Repr, DecidableEq

/-- State left by one orderFlow handler: the conversation state entry, the
order draft and the messages sent. -/
structure FlowResult where
  convState : Option ConvState
  orderData : Option OrderData
  messages : List Msg
deriving Repr, DecidableEq

/-- procesarModalidadEnvio(from, mensaje).  Option 1 / retiro / tienda
records the pickup draft fields and goes straight to the final confirmation
(solicitarConfirmacionFinal sends the summary and sets ORDER_CONFIRMING).
Option 2 / domicilio / envio records modalidad domicilio, then checks the
cart total against the 50000 delivery minimum: below it the user is sent
back to the add-more decision with the shortfall; otherwise the flow
advances to the address capture state. -/
def procesarModalidadEnvio (expired : Bool) (telefono mensaje : String)
    (convState : Option ConvState) (orderData : Option OrderData)
    (cart : List CartItem) : FlowResult :=
  if mensajeNormalizado mensaje = "1".data ∨
      containsList (mensajeNormalizado mensaje) "retiro".data = true ∨
      containsList (mensajeNormalizado mensaje) "tienda".data = true then
    { convState := some .ORDER_CONFIRMING
      orderData := some { orderData.getD emptyOrderData with
        modalidad := some "retiro"
        direccion_envio := some "Retiro en tienda"
        ciudad := none
        comuna := none
        courier := some "presencial" }
      messages := [.retiroSeleccionado, .resumenPedido] }
  else if mensajeNormalizado mensaje = "2".data ∨
      containsList (mensajeNormalizado mensaje) "domicilio".data = true ∨
      containsList (mensajeNormalizado mensaje) "envio".data = true ∨
      containsList (mensajeNormalizado mensaje) "envío".data = true then
    if (getCartTotals expired telefono cart).total < 50000 then
      { convState := some .ORDER_ADDING_MORE
        orderData := some { orderData.getD emptyOrderData with
          modalidad := some "domicilio" }
        messages := [.montoMinimo (getCartTotals expired telefono cart).total
          (50000 - (getCartTotals expired telefono cart).total)] }
    else
      { convState := some .ORDER_DELIVERY_ADDRESS
        orderData := some { orderData.getD emptyOrderData with
          modalidad := some "domicilio" }
        messages := [.domicilioSeleccionado] }
  else
    { convState := convState, orderData := orderData
      messages := [.opcionNoValida] }

/-- State left by procesarConfirmacion: the session record (which the
handler never touches), the conversation state entry, the order draft, the
stored cart and the messages sent. -/
structure ConfirmResult where
  session : Option Session
  convState : Option ConvState
  orderData : Option OrderData
  cart : List CartItem
  messages : List Msg
deriving Repr, DecidableEq

/-- procesarConfirmacion(from, mensaje).  The backend parameter is the
outcome of crearPedidoCompleto (ok with the order id, or error with the
human-readable detail thrown by the api client); the payload assembly that
precedes the call only shapes that request and is not modelled.  A missing
customer id aborts: the cart and draft are cleared and mostrarMenuPrincipal
is shown (the session record is never removed by this handler).  A thrown
backend error is caught: the error detail is shown and cart, draft and
state are left untouched.  On success the cart total is computed locally,
the success message sent, cart and draft cleared, and the menu shown. -/
def procesarConfirmacion (expired : Bool) (telefono mensaje : String)
    (idCliente : Option Int) (backend : Except String Int)
    (session : Option Session) (convState : Option ConvState)
    (orderData : Option OrderData) (cart : List CartItem) : ConfirmResult :=
  if containsList (mensajeNormalizado mensaje) "confirmar pedido".data = true ∨
      containsList (mensajeNormalizado mensaje) "confirmar".data = true then
    match idCliente with
    | none =>
      { session := session, convState := some .MENU, orderData := none
        cart := [], messages := [.procesandoPedido, .errorSesion, .menuPrincipal] }
    | some _ =>
      match orderData with
      | none =>
        -- reading direccion_envio of a null draft throws; the catch shows
        -- the error and nothing has been mutated yet
        { session := session, convState := convState, orderData := none
          cart := cart, messages := [.procesandoPedido, .errorPedido "TypeError"] }
      | some od =>
        match backend with
        | .error detalle =>
          { session := session, convState := convState, orderData := some od
            cart := cart, messages := [.procesandoPedido, .errorPedido detalle] }
        | .ok pedidoId =>
          { session := session, convState := some .MENU, orderData := none
            cart := []
            messages := [.procesandoPedido,
              .pedidoExitoso pedidoId (getCartTotals expired telefono cart).total,
              .menuPrincipal] }
  else if mensajeNormalizado mensaje = "cancelar".data ∨
      mensajeNormalizado mensaje = "no".data then
    { session := session, convState := some .MENU, orderData := none
      cart := [], messages := [.pedidoCancelado, .menuPrincipal] }
  else
    { session := session, convState := convState, orderData := orderData
      cart := cart, messages := [.confirmarNoEntendido] }

/-- The product search scratch data of conversationStateService. -/
structure SearchData where
  searchTerm : String
  foundProducts : List Producto
  selectedProduct : Option Producto
deriving Repr, DecidableEq

/-- State left by one productSearchFlow handler: the conversation state
entry, the search scratch data, the cart and the messages sent. -/
structure SearchFlowResult where
  convState : Option ConvState
  searchData : Option SearchData
  cart : List CartItem
  messages : List Msg
deriving Repr, DecidableEq

/-- procesarAccionDetalles(from, mensaje).  With no selected product the
handler errors back to PRODUCTOS.  An affirmative reply (si / sí / agregar /
comprar) invokes agregarProductoCarrito, which in the source is an explicit
placeholder: it sends the added-to-cart message, clears the search data and
sets PRODUCTOS, but never touches the cart.  A negative reply (no / buscar
otro / otro) restarts the search (clears search data, welcome message,
PRODUCT_SEARCH_WAITING_QUERY).  menu / menú is left to the flow controller
(no message, no state change here).  Anything else re-prompts with the three
options without changing state. -/
def procesarAccionDetalles (mensaje : String) (convState : Option ConvState)
    (searchData : Option SearchData) (cart : List CartItem) :
    SearchFlowResult :=
  match searchData.bind (fun sd => sd.selectedProduct) with
  | none =>
    { convState := some .PRODUCTOS, searchData := searchData, cart := cart
      messages := [.errorSinProducto] }
  | some producto =>
    if mensajeNormalizado mensaje = "si".data ∨
        mensajeNormalizado mensaje = "sí".data ∨
        mensajeNormalizado mensaje = "agregar".data ∨
        mensajeNormalizado mensaje = "comprar".data then
      { convState := some .PRODUCTOS, searchData := none, cart := cart
        messages := [.productoAgregadoPlaceholder producto.nombre] }
    else if mensajeNormalizado mensaje = "no".data ∨
        mensajeNormalizado mensaje = "buscar otro".data ∨
        mensajeNormalizado mensaje = "otro".data then
      { convState := some .PRODUCT_SEARCH_WAITING_QUERY, searchData := none
        cart := cart, messages := [.busquedaBienvenida] }
    else if mensajeNormalizado mensaje = "menu".data ∨
        mensajeNormalizado mensaje = "menú".data then
      { convState := convState, searchData := searchData, cart := cart
        messages := [] }
    else
      { convState := convState, searchData := searchData, cart := cart
        messages := [.detallesNoEntendido producto.nombre] }

/-- C6: while confirming an order, a backend failure of crearPedidoCompleto
is caught: the user is shown the error detail, and the cart, the order
draft, the ORDER_CONFIRMING state and the session are all left unchanged, so
resending confirmar retries with the same data. -/
theorem order_failure_preserves_retry_state (expired : Bool)
    (telefono mensaje : String) (idCliente : Int) (detalle : String)
    (session : Option Session) (orderData0 : OrderData) (cart : List CartItem)
    (h : containsList (mensajeNormalizado mensaje) "confirmar".data = true) :
    procesarConfirmacion expired telefono mensaje (some idCliente)
        (.error detalle) session (some .ORDER_CONFIRMING) (some orderData0)
        cart =
      { session := session, convState := some .ORDER_CONFIRMING
        orderData := some orderData0, cart := cart
        messages := [.procesandoPedido, .errorPedido detalle] } := by
  unfold procesarConfirmacion
  rw [if_pos (Or.inr h)]

/-- Witness for order_failure_preserves_retry_state at a concrete order. -/
theorem order_failure_preserves_retry_state_witness :
    procesarConfirmacion false "56911111111" "confirmar" (some 77)
        (.error "Datos inválidos: stock insuficiente")
        (some ⟨5000, 1000, false, false, false⟩) (some .ORDER_CONFIRMING)
        (some emptyOrderData)
        [createCartItem ⟨1, "mani", 1000, 800, 10⟩ 2] =
      { session := some ⟨5000, 1000, false, false, false⟩
        convState := some .ORDER_CONFIRMING
        orderData := some emptyOrderData
        cart := [createCartItem ⟨1, "mani", 1000, 800, 10⟩ 2]
        messages := [.procesandoPedido,
          .errorPedido "Datos inválidos: stock insuficiente"] } := by
  exact order_failure_preserves_retry_state false "56911111111" "confirmar"
    77 "Datos inválidos: stock insuficiente"
    (some ⟨5000, 1000, false, false, false⟩) emptyOrderData
    [createCartItem ⟨1, "mani", 1000, 800, 10⟩ 2] (by decide)

/-- C7: the claim says a missing customer id at confirmation performs a full
session reset (session record removed, conversation state cleared).  The
source only clears the cart and the order draft and shows the main menu: the
session record survives and the conversation state is set to MENU, not
cleared to the INITIAL default. -/
theorem missing_client_keeps_session :
    (procesarConfirmacion false "56911111111" "confirmar" none (.ok 1)
        (some ⟨5000, 1000, false, false, false⟩) (some .ORDER_CONFIRMING)
        (some emptyOrderData)
        [createCartItem ⟨1, "mani", 1000, 800, 10⟩ 2]).session
      = some ⟨5000, 1000, false, false, false⟩ ∧
    (procesarConfirmacion false "56911111111" "confirmar" none (.ok 1)
        (some ⟨5000, 1000, false, false, false⟩) (some .ORDER_CONFIRMING)
        (some emptyOrderData)
        [createCartItem ⟨1, "mani", 1000, 800, 10⟩ 2]).convState
      = some .MENU ∧
    some (⟨5000, 1000, false, false, false⟩ : Session) ≠ (none : Option Session) ∧
    (some ConvState.MENU ≠ (none : Option ConvState) ∧
      getState (some .MENU) ≠ ConvState.INITIAL) := by
  decide

/-- C7 (amended): a confirmar reply with no resolved customer id aborts with
the session-error message, clears the cart and the order draft, and returns
to the main menu (conversation state MENU); the session record itself is
left untouched. -/
theorem missing_client_aborts_to_menu (expired : Bool)
    (telefono mensaje : String) (backend : Except String Int)
    (session : Option Session) (convState : Option ConvState)
    (orderData : Option OrderData) (cart : List CartItem)
    (h : containsList (mensajeNormalizado mensaje) "confirmar".data = true) :
    procesarConfirmacion expired telefono mensaje none backend session
        convState orderData cart =
      { session := session, convState := some .MENU, orderData := none
        cart := []
        messages := [.procesandoPedido, .errorSesion, .menuPrincipal] } := by
  unfold procesarConfirmacion
  rw [if_pos (Or.inr h)]

/-- Witness for missing_client_aborts_to_menu at a concrete state. -/
theorem missing_client_aborts_to_menu_witness :
    procesarConfirmacion false "56911111111" "Confirmar pedido" none (.ok 1)
        (some ⟨5000, 1000, false, false, false⟩) (some .ORDER_CONFIRMING)
        (some emptyOrderData)
        [createCartItem ⟨1, "mani", 1000, 800, 10⟩ 2] =
      { session := some ⟨5000, 1000, false, false, false⟩
        convState := some .MENU, orderData := none, cart := []
        messages := [.procesandoPedido, .errorSesion, .menuPrincipal] } := by
  exact missing_client_aborts_to_menu false "56911111111" "Confirmar pedido"
    (.ok 1) (some ⟨5000, 1000, false, false, false⟩) (some .ORDER_CONFIRMING)
    (some emptyOrderData) [createCartItem ⟨1, "mani", 1000, 800, 10⟩ 2]
    (by decide)

/-- C8: the claim says an affirmative reply in SHOWING_DETAILS adds the
selected product with quantity 1 to the cart.  agregarProductoCarrito is an
explicit placeholder in the source (TODO: implement cart logic): it sends
the added-to-cart message and returns to PRODUCTOS, but the cart stays empty
and no line for product 7 is created. -/
theorem details_affirmative_adds_nothing :
    (procesarAccionDetalles "si" (some .PRODUCT_SEARCH_SHOWING_DETAILS)
        (some ⟨"mani", [⟨7, "mani salado", 1000, 800, 10⟩],
          some ⟨7, "mani salado", 1000, 800, 10⟩⟩) []).cart = [] ∧
    (procesarAccionDetalles "si" (some .PRODUCT_SEARCH_SHOWING_DETAILS)
        (some ⟨"mani", [⟨7, "mani salado", 1000, 800, 10⟩],
          some ⟨7, "mani salado", 1000, 800, 10⟩⟩) []).convState
      = some .PRODUCTOS ∧
    (procesarAccionDetalles "si" (some .PRODUCT_SEARCH_SHOWING_DETAILS)
        (some ⟨"mani", [⟨7, "mani salado", 1000, 800, 10⟩],
          some ⟨7, "mani salado", 1000, 800, 10⟩⟩) []).messages
      = [.productoAgregadoPlaceholder "mani salado"] := by
  decide

/-- C8 (amended): in SHOWING_DETAILS with a selected product, an affirmative
reply (si / sí / agregar / comprar) sends the added-to-cart confirmation,
clears the search data and returns to the product-info state PRODUCTOS while
leaving the cart untouched (the cart insertion is an unimplemented
placeholder); a negative reply (no / buscar otro / otro) restarts the
search; any other reply apart from the menu keywords re-prompts with the
three options without changing state, search data or cart. -/
theorem details_actions_behavior (mensaje : String)
    (convState : Option ConvState) (searchData : Option SearchData)
    (p : Producto) (cart : List CartItem)
    (hp : searchData.bind (fun sd => sd.selectedProduct) = some p) :
    ((mensajeNormalizado mensaje = "si".data ∨
        mensajeNormalizado mensaje = "sí".data ∨
        mensajeNormalizado mensaje = "agregar".data ∨
        mensajeNormalizado mensaje = "comprar".data) →
      procesarAccionDetalles mensaje convState searchData cart =
        { convState := some .PRODUCTOS, searchData := none, cart := cart
          messages := [.productoAgregadoPlaceholder p.nombre] }) ∧
    (¬ (mensajeNormalizado mensaje = "si".data ∨
        mensajeNormalizado mensaje = "sí".data ∨
        mensajeNormalizado mensaje = "agregar".data ∨
        mensajeNormalizado mensaje = "comprar".data) →
      (mensajeNormalizado mensaje = "no".data ∨
        mensajeNormalizado mensaje = "buscar otro".data ∨
        mensajeNormalizado mensaje = "otro".data) →
      procesarAccionDetalles mensaje convState searchData cart =
        { convState := some .PRODUCT_SEARCH_WAITING_QUERY, searchData := none
          cart := cart, messages := [.busquedaBienvenida] }) ∧
    (¬ (mensajeNormalizado mensaje = "si".data ∨
        mensajeNormalizado mensaje = "sí".data ∨
        mensajeNormalizado mensaje = "agregar".data ∨
        mensajeNormalizado mensaje = "comprar".data) →
      ¬ (mensajeNormalizado mensaje = "no".data ∨
        mensajeNormalizado mensaje = "buscar otro".data ∨
        mensajeNormalizado mensaje = "otro".data) →
      ¬ (mensajeNormalizado mensaje = "menu".data ∨
        mensajeNormalizado mensaje = "menú".data) →
      procesarAccionDetalles mensaje convState searchData cart =
        { convState := convState, searchData := searchData, cart := cart
          messages := [.detallesNoEntendido p.nombre] }) := by
  unfold procesarAccionDetalles
  rw [hp]
  dsimp only
  refine ⟨fun haff => ?_, fun hnaff hneg => ?_, fun hnaff hneg hnmenu => ?_⟩
  · rw [if_pos haff]
  · rw [if_neg hnaff, if_pos hneg]
  · rw [if_neg hnaff, if_neg hneg, if_neg hnmenu]

/-- Witness for details_actions_behavior on the three reply kinds. -/
theorem details_actions_behavior_witness :
    procesarAccionDetalles "sí" (some .PRODUCT_SEARCH_SHOWING_DETAILS)
        (some ⟨"mani", [⟨7, "mani salado", 1000, 800, 10⟩],
          some ⟨7, "mani salado", 1000, 800, 10⟩⟩) [] =
      { convState := some .PRODUCTOS, searchData := none, cart := []
        messages := [.productoAgregadoPlaceholder "mani salado"] } ∧
    procesarAccionDetalles "no" (some .PRODUCT_SEARCH_SHOWING_DETAILS)
        (some ⟨"mani", [⟨7, "mani salado", 1000, 800, 10⟩],
          some ⟨7, "mani salado", 1000, 800, 10⟩⟩) [] =
      { convState := some .PRODUCT_SEARCH_WAITING_QUERY, searchData := none
        cart := [], messages := [.busquedaBienvenida] } ∧
    procesarAccionDetalles "gracias" (some .PRODUCT_SEARCH_SHOWING_DETAILS)
        (some ⟨"mani", [⟨7, "mani salado", 1000, 800, 10⟩],
          some ⟨7, "mani salado", 1000, 800, 10⟩⟩) [] =
      { convState := some .PRODUCT_SEARCH_SHOWING_DETAILS
        searchData := some ⟨"mani", [⟨7, "mani salado", 1000, 800, 10⟩],
          some ⟨7, "mani salado", 1000, 800, 10⟩⟩
        cart := [], messages := [.detallesNoEntendido "mani salado"] } := by
  refine ⟨(details_actions_behavior "sí" (some .PRODUCT_SEARCH_SHOWING_DETAILS)
      (some ⟨"mani", [⟨7, "mani salado", 1000, 800, 10⟩],
        some ⟨7, "mani salado", 1000, 800, 10⟩⟩)
      ⟨7, "mani salado", 1000, 800, 10⟩ [] (by decide)).1 (by decide),
    (details_actions_behavior "no" (some .PRODUCT_SEARCH_SHOWING_DETAILS)
      (some ⟨"mani", [⟨7, "mani salado", 1000, 800, 10⟩],
        some ⟨7, "mani salado", 1000, 800, 10⟩⟩)
      ⟨7, "mani salado", 1000, 800, 10⟩ [] (by decide)).2.1 (by decide)
      (by decide),
    (details_actions_behavior "gracias" (some .PRODUCT_SEARCH_SHOWING_DETAILS)
      (some ⟨"mani", [⟨7, "mani salado", 1000, 800, 10⟩],
        some ⟨7, "mani salado", 1000, 800, 10⟩⟩)
      ⟨7, "mani salado", 1000, 800, 10⟩ [] (by decide)).2.2 (by decide)
      (by decide) (by decide)⟩

/-- C9: in the delivery-method state, choosing home delivery (reply 2) with
a cart total strictly below 50000 records modalidad domicilio but sends the
user back to the add-more decision with the shortfall 50000 - total, never
reaching address capture; with a total of 50000 or more the draft records
modalidad domicilio and the state advances to the address-capture state. -/
theorem delivery_minimum_enforced (expired : Bool) (telefono : String)
    (convState : Option ConvState) (orderData : Option OrderData)
    (cart : List CartItem) :
    ((getCartTotals expired telefono cart).total < 50000 →
      procesarModalidadEnvio expired telefono "2" convState orderData cart =
        { convState := some .ORDER_ADDING_MORE
          orderData := some { orderData.getD emptyOrderData with
            modalidad := some "domicilio" }
          messages := [.montoMinimo (getCartTotals expired telefono cart).total
            (50000 - (getCartTotals expired telefono cart).total)] } ∧
      (procesarModalidadEnvio expired telefono "2" convState orderData
          cart).convState ≠ some .ORDER_DELIVERY_ADDRESS) ∧
    (50000 ≤ (getCartTotals expired telefono cart).total →
      procesarModalidadEnvio expired telefono "2" convState orderData cart =
        { convState := some .ORDER_DELIVERY_ADDRESS
          orderData := some { orderData.getD emptyOrderData with
            modalidad := some "domicilio" }
          messages := [.domicilioSeleccionado] }) := by
  constructor
  · intro h
    constructor
    · unfold procesarModalidadEnvio
      rw [if_neg (by decide), if_pos (by decide), if_pos h]
    · unfold procesarModalidadEnvio
      rw [if_neg (by decide), if_pos (by decide), if_pos h]
      simp
  · intro h
    unfold procesarModalidadEnvio
    rw [if_neg (by decide), if_pos (by decide), if_neg (by omega)]

/-- Witness for delivery_minimum_enforced: a 30000 cart is sent back to the
add-more decision with the 20000 shortfall; a 50000 cart advances to the
address capture. -/
theorem delivery_minimum_enforced_witness :
    procesarModalidadEnvio false "56911111111" "2" (some .ORDER_DELIVERY_METHOD)
        none [createCartItem ⟨1, "mani", 10000, 9000, 10⟩ 3] =
      { convState := some .ORDER_ADDING_MORE
        orderData := some { emptyOrderData with modalidad := some "domicilio" }
        messages := [.montoMinimo 30000 20000] } ∧
    procesarModalidadEnvio false "56911111111" "2" (some .ORDER_DELIVERY_METHOD)
        none [createCartItem ⟨1, "mani", 10000, 10000, 10⟩ 5] =
      { convState := some .ORDER_DELIVERY_ADDRESS
        orderData := some { emptyOrderData with modalidad := some "domicilio" }
        messages := [.domicilioSeleccionado] } := by
  constructor
  · have h := (delivery_minimum_enforced false "56911111111"
      (some .ORDER_DELIVERY_METHOD) none
      [createCartItem ⟨1, "mani", 10000, 9000, 10⟩ 3]).1 (by decide)
    rw [h.1]
    decide
  · have h := (delivery_minimum_enforced false "56911111111"
      (some .ORDER_DELIVERY_METHOD) none
      [createCartItem ⟨1, "mani", 10000, 10000, 10⟩ 5]).2 (by decide)
    rw [h]
    decide
